import Mathlib

/-!
Shallow embedding of the data pipeline of `src/app.py` (a Dash dashboard that
fetches World Bank population / net-migration series, normalizes them with
pandas, outer-joins them and filters them in a callback).

Modelling conventions:
* JSON record fields that may be absent or `null` are `Option` values: for a
  list of dicts, `pd.DataFrame` fills a key missing from one record with NaN,
  so absence and null coincide once the frame is built.
* JSON numbers (the World Bank `value` field, a nullable number) are `ℚ`;
  no claim depends on binary floating-point rounding, only on values being
  carried through unchanged or being null.
* A pandas DataFrame produced by `process_data` is `PTable`: either the
  column-less frame `pd.DataFrame()` (what the code returns for an empty
  series) or a three-column table of rows. `pd.merge` on a frame that lacks
  the join columns raises `KeyError`; fallible steps return `Option`, with
  `none` standing for a raised exception.
* Python `int(s)` (what `Series.astype(int)` applies element-wise to an
  object column of strings) is embedded as `str_to_int`: optional sign
  followed by decimal digits, anything else raises.
-/

namespace App

/-- One record of the World Bank JSON `records` array (element 1 of the
response envelope). The three fields read by `process_data` are explicit;
the remaining source fields (`indicator`, `country`, `unit`, `obs_status`,
`decimal`, ...) are kept as an association list of possibly-null values so
that their (ir)relevance to row dropping can be stated. -/
structure RawRecord where
  countryiso3code : Option String
  date : Option String
  value : Option ℚ
  otherFields : List (String × Option String)
deriving DecidableEq

/-- An HTTP response as seen by `fetch_data`: a status code and the decoded
JSON body. The body of a World Bank reply is an array `[metadata, records]`;
`fetch_data` only ever reads element 1 and only as a records array, so the
envelope is modelled as a list of record arrays (element 0, the metadata
object, is never inspected by the code). -/
structure WBResponse where
  status_code : Nat
  envelope : List (List RawRecord)
deriving DecidableEq

/-- Lines 16-26 of `src/app.py`: on status 200 and an envelope of length > 1
return `data[1]`, otherwise print a diagnostic and return `[]`. The printing
is I/O only and is not modelled. -/
def fetch_data (resp : WBResponse) : List RawRecord :=
  if resp.status_code = 200 then
    if resp.envelope.length > 1 then resp.envelope.getD 1 []
    else []
  else []

/-- The HTTP request issued by `fetch_data` before reading the response:
`requests.get(url, params=params)`. Query parameter values are the strings
`requests` serializes them to (the integer `5000` serializes as `"5000"`). -/
structure HttpRequest where
  method : String
  url : String
  params : List (String × String)
deriving DecidableEq

/-- Lines 9-16 of `src/app.py`: the URL is the f-string
`http://api.worldbank.org/v2/country/{';'.join(country_codes)}/indicator/{indicator}`
and the params dict is `format=json`, `date=f"{start_year}:{end_year}"`,
`per_page=5000`, in that insertion order. -/
def fetch_request (country_codes : List String) (indicator : String)
    (start_year end_year : Int) : HttpRequest :=
  { method := "GET"
    url := "http://api.worldbank.org/v2/country/"
        ++ String.intercalate ";" country_codes
        ++ "/indicator/" ++ indicator
    params := [("format", "json"),
               ("date", toString start_year ++ ":" ++ toString end_year),
               ("per_page", "5000")] }

/-- Modelled from the spec (§6, external interfaces): an HTTP GET to
`{base_url}/country/{semicolon-joined entity codes}/indicator/{metric_id}`
with query parameters `format=json`, `date={start_year}:{end_year}`,
`per_page=5000`. This is the spec-side description of the request, to be
compared with the source-side `fetch_request`. -/
def spec_request (base_url : String) (entity_codes : List String)
    (metric_id : String) (start_year end_year : Int) : HttpRequest :=
  { method := "GET"
    url := base_url ++ "/country/"
        ++ String.intercalate ";" entity_codes
        ++ "/indicator/" ++ metric_id
    params := [("format", "json"),
               ("date", toString start_year ++ ":" ++ toString end_year),
               ("per_page", "5000")] }

/-- A row of the intermediate frame after column selection and renaming
(line 32-33: `df[['countryiso3code','date','value']]`, columns renamed to
`Country Code`, `Year`, `Value`) but before `dropna` and the `astype`
coercions. Every cell may be null. -/
structure RawRow where
  country : Option String
  year : Option String
  value : Option ℚ
deriving DecidableEq

/-- A row of the cleaned frame, after `Year` has been coerced to integer and
`Value` to float. Cells are still nullable, as any pandas cell is; the
null-safety property is a theorem, not a typing artifact. -/
structure Row where
  country : Option String
  year : Option Int
  value : Option ℚ
deriving DecidableEq

/-- The result of `process_data`: either the column-less empty frame
`pd.DataFrame()` (the `else` branch of line 38-39) or a frame with the
three-column schema and a list of rows. -/
inductive PTable where
  | empty
  | table (rows : List Row)
deriving DecidableEq

/-- The column labels of a `PTable`: `pd.DataFrame()` has no columns at all;
a processed frame has the three renamed columns of line 33. -/
def PTable.columns : PTable → List String
  | PTable.empty => []
  | PTable.table _ => ["Country Code", "Year", "Value"]

/-- Line 32-33: select the three source fields and rename them. Selection
reads only `countryiso3code`, `date` and `value`; all other source fields
are discarded here, before any null handling. -/
def select_columns (r : RawRecord) : RawRow :=
  { country := r.countryiso3code, year := r.date, value := r.value }

/-- The row-retention predicate of `df.dropna()` (line 34) on the selected
three-column frame: keep a row iff none of its three cells is null. -/
def row_notna (r : RawRow) : Bool :=
  r.country.isSome && r.year.isSome && r.value.isSome

/-- Digit run of Python `int(s)`: accumulates decimal digits, raises (none)
on any non-digit character. -/
def digits_to_nat_go : List Char → Nat → Option Nat
  | [], acc => some acc
  | c :: cs, acc =>
      if c.isDigit then digits_to_nat_go cs (acc * 10 + (c.toNat - 48))
      else none

/-- Nonempty decimal digit string to `Nat`, else none. -/
def digits_to_nat : List Char → Option Nat
  | [] => none
  | cs => digits_to_nat_go cs 0

/-- Python `int(s)` on a string: optional leading minus sign followed by at
least one decimal digit; anything else raises `ValueError` (modelled as
`none`). This is what `astype(int)` applies to each `Year` cell. -/
def str_to_int (s : String) : Option Int :=
  match s.data with
  | '-' :: cs => (digits_to_nat cs).map fun n => -(n : Int)
  | cs => (digits_to_nat cs).map fun n => (n : Int)

/-- Lines 35-36 applied to one surviving row: `Year` is coerced to integer
(raising on an unparsable or null cell) and `Value` to float (the identity
on an already-numeric cell). -/
def astype_row (r : RawRow) : Option Row :=
  match r.year with
  | some s => (str_to_int s).map fun y =>
      { country := r.country, year := some y, value := r.value }
  | none => none

/-- The column-wise `astype` coercions of lines 35-36 over the whole frame:
if any cell fails to convert the whole statement raises. -/
def astype_all : List RawRow → Option (List Row)
  | [] => some []
  | r :: rs =>
      match astype_row r, astype_all rs with
      | some row, some rows => some (row :: rows)
      | _, _ => none

/-- Lines 29-39, `process_data`: an empty `raw_data` list is falsy, so the
code returns the column-less `pd.DataFrame()`; otherwise it selects and
renames the three columns, drops rows with any null, and coerces the `Year`
and `Value` columns. -/
def process_data (raw : List RawRecord) : Option PTable :=
  if raw.isEmpty then some PTable.empty
  else
    (astype_all (((raw.map select_columns).filter row_notna))).map PTable.table

/-- A row of `merged_df` (lines 59-64): the join keys plus the two suffixed
value columns `Value_Population` and `Value_Net Migration` (the space in the
pandas column label is not representable in a Lean identifier). -/
structure MergedRow where
  country : Option String
  year : Option Int
  value_Population : Option ℚ
  value_NetMigration : Option ℚ
deriving DecidableEq

/-- Join-key equality of two rows on `['Country Code', 'Year']`. pandas
`merge` treats NaN as an ordinary key value that matches NaN, which is what
`Option` equality gives. -/
def key_matches (l r : Row) : Bool :=
  l.country == r.country && l.year == r.year

/-- Merged row emitted for a left row with no key match on the right: the
right value column is filled with NaN. -/
def left_only_row (l : Row) : MergedRow :=
  { country := l.country, year := l.year,
    value_Population := l.value, value_NetMigration := none }

/-- Merged row emitted for a key-matching pair of rows. -/
def matched_row (l r : Row) : MergedRow :=
  { country := l.country, year := l.year,
    value_Population := l.value, value_NetMigration := r.value }

/-- Merged row emitted for a right row with no key match on the left: the
left value column is filled with NaN. -/
def right_only_row (r : Row) : MergedRow :=
  { country := r.country, year := r.year,
    value_Population := none, value_NetMigration := r.value }

/-- The row set of `pd.merge(left, right, on=['Country Code','Year'],
how='outer', suffixes=...)` when both frames carry the join columns: each
left row is paired with every key-matching right row (or with nulls if none
matches), then the right rows whose key matches no left row are appended
with nulls on the left side. Row order is not part of any contract. -/
def merge_tables (left right : List Row) : List MergedRow :=
  (left.flatMap fun l =>
    if (right.filter fun r => key_matches l r).isEmpty then
      [left_only_row l]
    else
      (right.filter fun r => key_matches l r).map (matched_row l))
  ++ ((right.filter fun r => !(left.any fun l => key_matches l r)).map
        right_only_row)

/-- Lines 59-64 as a fallible operation: `pd.merge` first looks the `on`
columns up in both frames, and the column-less `pd.DataFrame()` (what
`process_data` returns for an empty series) has neither `Country Code` nor
`Year`, so the call raises `KeyError` (modelled as `none`). -/
def pd_merge : PTable → PTable → Option (List MergedRow)
  | PTable.table l, PTable.table r => some (merge_tables l r)
  | _, _ => none

/-- The `(entity_code, year)` join key of a cleaned row. -/
def Row.key (r : Row) : Option String × Option Int :=
  (r.country, r.year)

/-- The `(entity_code, year)` join key of a merged row. -/
def MergedRow.key (m : MergedRow) : Option String × Option Int :=
  (m.country, m.year)

/-- The multiset of keys of a MetricTable, as a list. -/
def table_keys (rows : List Row) : List (Option String × Option Int) :=
  rows.map Row.key

/-- The multiset of keys of a MergedTable, as a list. -/
def merged_keys (rows : List MergedRow) : List (Option String × Option Int) :=
  rows.map MergedRow.key

/-- The boolean mask of lines 195-199: `Country Code` in the selected list,
and `Year` between the slider bounds. In pandas, `NaN.isin(...)` is false
and any comparison against NaN is false, so a null key cell never selects. -/
def row_selected (countries : List String) (lo hi : Int) (m : MergedRow) : Bool :=
  (match m.country with
   | some c => countries.contains c
   | none => false)
  && (match m.year with
      | some y => decide (lo ≤ y) && decide (y ≤ hi)
      | none => false)

/-- Lines 195-199: boolean-mask indexing `df[mask]` builds a new frame of
the rows satisfying the mask; the source frame is not mutated. -/
def filter_rows (countries : List String) (lo hi : Int)
    (rows : List MergedRow) : List MergedRow :=
  rows.filter (row_selected countries lo hi)

end App

namespace App

/-- C1: for every response with a non-success HTTP status, and for every
response whose JSON envelope has fewer than two elements, `fetch_data`
returns the empty list; being a total function of the response, it raises
nothing on these paths — the empty result is the normal outcome. -/
theorem fetch_fail_soft (resp : WBResponse) :
    (resp.status_code ≠ 200 → fetch_data resp = []) ∧
    (resp.envelope.length < 2 → fetch_data resp = []) := by
  constructor
  · intro h
    simp [fetch_data, h]
  · intro h
    unfold fetch_data
    split
    · split
      · omega
      · rfl
    · rfl

/-- Witness for C1 at a concrete 500 response. -/
theorem fetch_fail_soft_witness :
    (500 : Nat) ≠ 200 ∧
      fetch_data { status_code := 500, envelope := [[], []] } = [] :=
  ⟨by decide, (fetch_fail_soft { status_code := 500, envelope := [[], []] }).1
    (by decide)⟩

/-- C2 (code bug): `process_data` on the empty series returns the
column-less `pd.DataFrame()`, and `pd.merge` of a populated table with that
frame raises `KeyError` (here `none`) instead of producing the populated
rows with a null-filled migration column. -/
theorem merge_with_empty_frame_raises :
    process_data ([] : List RawRecord) = some PTable.empty ∧
    pd_merge
      (PTable.table [{ country := some "AFG", year := some 2020,
                       value := some 38972230 }])
      PTable.empty = none :=
  ⟨rfl, rfl⟩

/-- C7 counterexample: `process_data` on the empty series does return a
zero-row frame, but that frame does not carry the three-column schema — it
has no columns at all. -/
theorem normalize_empty_lacks_schema :
    process_data ([] : List RawRecord) = some PTable.empty ∧
    PTable.columns PTable.empty ≠ ["Country Code", "Year", "Value"] :=
  ⟨rfl, by decide⟩

/-- C7 amended: on the empty MetricSeries, `normalize` returns an empty
frame with zero rows whose schema is empty (no columns), not the
three-column schema. -/
theorem normalize_empty_zero_rows_no_columns :
    process_data ([] : List RawRecord) = some PTable.empty ∧
    PTable.columns PTable.empty = [] :=
  ⟨rfl, rfl⟩

/-- C8: the country/year filter is a pure function of its arguments and
applying it twice with the same arguments yields the same rows as applying
it once; the source table is never mutated (boolean-mask indexing builds a
new frame). -/
theorem filter_purity (countries : List String) (lo hi : Int)
    (rows : List MergedRow) :
    filter_rows countries lo hi (filter_rows countries lo hi rows)
      = filter_rows countries lo hi rows := by
  unfold filter_rows
  rw [List.filter_filter]
  simp

/-- C9: the request built by `fetch_data` coincides with the request the
spec describes — an HTTP GET to
`{base_url}/country/{joined codes}/indicator/{metric_id}` with query
parameters `format=json`, `date={start}:{end}`, `per_page=5000` — at the
code's base URL `http://api.worldbank.org/v2`. -/
theorem fetch_request_matches_spec (codes : List String) (metric_id : String)
    (sy ey : Int) :
    fetch_request codes metric_id sy ey
      = spec_request "http://api.worldbank.org/v2" codes metric_id sy ey := by
  simp [fetch_request, spec_request]

/-- C10: a row with non-null key cells is in the filtered result exactly
when its country is selected and its year lies between the bounds, both
bounds included. -/
theorem filter_year_range_inclusive (rows : List MergedRow)
    (countries : List String) (lo hi : Int) (m : MergedRow) (c : String)
    (y : Int) (hm : m ∈ rows) (hc : m.country = some c)
    (hy : m.year = some y) :
    m ∈ filter_rows countries lo hi rows ↔
      c ∈ countries ∧ lo ≤ y ∧ y ≤ hi := by
  simp [filter_rows, List.mem_filter, hm, row_selected, hc, hy]

/-- Every row of a successfully coerced frame is the coercion of some row
of the input frame. -/
theorem astype_all_mem_elim :
    ∀ {rs : List RawRow} {rows : List Row}, astype_all rs = some rows →
      ∀ {row : Row}, row ∈ rows → ∃ r ∈ rs, astype_row r = some row := by
  intro rs
  induction rs with
  | nil =>
    intro rows h row hrow
    simp only [astype_all, Option.some.injEq] at h
    subst h
    simp at hrow
  | cons r rs ih =>
    intro rows h row hrow
    simp only [astype_all] at h
    cases h1 : astype_row r with
    | none => rw [h1] at h; exact absurd h (by simp)
    | some row0 =>
      cases h2 : astype_all rs with
      | none => rw [h1, h2] at h; exact absurd h (by simp)
      | some rows0 =>
        rw [h1, h2] at h
        simp only [Option.some.injEq] at h
        subst h
        rcases List.mem_cons.1 hrow with h | h
        · exact ⟨r, List.mem_cons_self r rs, by rw [h1, h]⟩
        · obtain ⟨r', hr', ha⟩ := ih h2 h
          exact ⟨r', List.mem_cons_of_mem _ hr', ha⟩

/-- Every row of the input frame survives a successful coercion of the whole
frame, as its own coercion. -/
theorem astype_all_mem_intro :
    ∀ {rs : List RawRow} {rows : List Row}, astype_all rs = some rows →
      ∀ {r : RawRow}, r ∈ rs → ∃ row ∈ rows, astype_row r = some row := by
  intro rs
  induction rs with
  | nil =>
    intro rows h r hr
    simp at hr
  | cons r0 rs ih =>
    intro rows h r hr
    simp only [astype_all] at h
    cases h1 : astype_row r0 with
    | none => rw [h1] at h; exact absurd h (by simp)
    | some row0 =>
      cases h2 : astype_all rs with
      | none => rw [h1, h2] at h; exact absurd h (by simp)
      | some rows0 =>
        rw [h1, h2] at h
        simp only [Option.some.injEq] at h
        subst h
        rcases List.mem_cons.1 hr with h | h
        · exact ⟨row0, List.mem_cons_self row0 rows0, by rw [h, h1]⟩
        · obtain ⟨row, hrow, ha⟩ := ih h2 h
          exact ⟨row, List.mem_cons_of_mem _ hrow, ha⟩

/-- C5: every row of a table produced by `process_data` has a non-null
country code, a non-null year and a non-null value — `dropna` removes every
row with a null in any of the three selected columns, and the `astype`
coercions introduce no nulls. -/
theorem normalize_null_safety (raw : List RawRecord) (rows : List Row)
    (h : process_data raw = some (PTable.table rows)) :
    ∀ row ∈ rows, row.country ≠ none ∧ row.year ≠ none ∧ row.value ≠ none := by
  intro row hrow
  unfold process_data at h
  by_cases he : raw.isEmpty
  · simp [he] at h
  · rw [if_neg he] at h
    rw [Option.map_eq_some'] at h
    obtain ⟨rows', h1, h2⟩ := h
    cases h2
    obtain ⟨r, hrs, ha⟩ := astype_all_mem_elim h1 hrow
    have hn : row_notna r = true := (List.mem_filter.1 hrs).2
    simp only [row_notna, Bool.and_eq_true, Option.isSome_iff_exists] at hn
    obtain ⟨⟨⟨c, hc⟩, ⟨s, hs⟩⟩, ⟨v, hv⟩⟩ := hn
    simp only [astype_row, hs, Option.map_eq_some'] at ha
    obtain ⟨y, _, hrw⟩ := ha
    subst hrw
    simp [hc, hv]

/-- Witness for C5 at a concrete one-record series. -/
theorem normalize_null_safety_witness :
    process_data
        [{ countryiso3code := some "AFG", date := some "2020",
           value := some 38972230, otherFields := [("unit", none)] }]
      = some (PTable.table
          [{ country := some "AFG", year := some 2020,
             value := some 38972230 }]) ∧
    ({ country := some "AFG", year := some 2020,
       value := some 38972230 } : Row).country ≠ none :=
  ⟨by decide,
    (normalize_null_safety
        [{ countryiso3code := some "AFG", date := some "2020",
           value := some 38972230, otherFields := [("unit", none)] }]
        [{ country := some "AFG", year := some 2020,
           value := some 38972230 }]
        (by decide)
        { country := some "AFG", year := some 2020, value := some 38972230 }
        (by decide)).1⟩

/-- C6: column selection happens before `dropna`, so a record whose three
selected fields are all non-null contributes a row to the output — whatever
its other, unselected source fields hold, nulls included. (Since
`process_data` succeeded, the record's year string necessarily parsed.) -/
theorem select_before_dropna (raw : List RawRecord) (rows : List Row)
    (rec : RawRecord) (c d : String) (v : ℚ)
    (h : process_data raw = some (PTable.table rows))
    (hmem : rec ∈ raw) (hc : rec.countryiso3code = some c)
    (hd : rec.date = some d) (hv : rec.value = some v) :
    ∃ y : Int, str_to_int d = some y ∧
      ({ country := some c, year := some y, value := some v } : Row) ∈ rows := by
  unfold process_data at h
  have hne : raw.isEmpty = false := by
    cases raw with
    | nil => simp at hmem
    | cons a l => rfl
  rw [hne] at h
  simp only [Bool.false_eq_true, if_false] at h
  rw [Option.map_eq_some'] at h
  obtain ⟨rows', h1, h2⟩ := h
  cases h2
  have hmap : select_columns rec ∈ raw.map select_columns :=
    List.mem_map_of_mem _ hmem
  have hsel : select_columns rec ∈ (raw.map select_columns).filter row_notna :=
    List.mem_filter.2 ⟨hmap, by simp [row_notna, select_columns, hc, hd, hv]⟩
  obtain ⟨row, hrow, ha⟩ := astype_all_mem_intro h1 hsel
  simp only [astype_row, select_columns, hc, hd, hv, Option.map_eq_some'] at ha
  obtain ⟨y, hy, hrw⟩ := ha
  exact ⟨y, hy, by rw [← hrw] at hrow; exact hrow⟩

/-- Witness for C6: a record whose unselected field is null still yields its
row. -/
theorem select_before_dropna_witness :
    (∃ y : Int, str_to_int "1960" = some y ∧
      ({ country := some "PAK", year := some y,
         value := some 45 } : Row) ∈
        [{ country := some "PAK", year := some 1960, value := some 45 }]) :=
  select_before_dropna
    [{ countryiso3code := some "PAK", date := some "1960",
       value := some 45, otherFields := [("obs_status", none)] }]
    [{ country := some "PAK", year := some 1960, value := some 45 }]
    { countryiso3code := some "PAK", date := some "1960",
      value := some 45, otherFields := [("obs_status", none)] }
    "PAK" "1960" 45 (by decide) (by decide) rfl rfl rfl

/-- Boolean join-key equality coincides with equality of the key pairs. -/
theorem key_matches_iff (l r : Row) :
    key_matches l r = true ↔ Row.key l = Row.key r := by
  simp [key_matches, Row.key, Prod.ext_iff]

/-- Membership characterization of the outer join: a merged row is either a
left row paired with nulls (no right match), a matched pair, or a right row
paired with nulls (no left match). -/
theorem mem_merge_iff {left right : List Row} {m : MergedRow} :
    m ∈ merge_tables left right ↔
      (∃ l ∈ left,
        ((right.filter fun r => key_matches l r) = [] ∧ m = left_only_row l) ∨
        (∃ r ∈ right, key_matches l r = true ∧ m = matched_row l r)) ∨
      (∃ r ∈ right, (∀ l ∈ left, key_matches l r = false) ∧
        m = right_only_row r) := by
  constructor
  · intro hm
    rcases List.mem_append.1 hm with h | h
    · obtain ⟨l, hl, hml⟩ := List.mem_flatMap.1 h
      left
      refine ⟨l, hl, ?_⟩
      by_cases hE : ((right.filter fun r => key_matches l r).isEmpty) = true
      · rw [if_pos hE] at hml
        exact Or.inl ⟨List.isEmpty_iff.1 hE, List.mem_singleton.1 hml⟩
      · rw [if_neg hE] at hml
        obtain ⟨r, hrf, hmr⟩ := List.mem_map.1 hml
        obtain ⟨hr, hk⟩ := List.mem_filter.1 hrf
        exact Or.inr ⟨r, hr, hk, hmr.symm⟩
    · obtain ⟨r, hrf, hmr⟩ := List.mem_map.1 h
      obtain ⟨hr, hna⟩ := List.mem_filter.1 hrf
      right
      refine ⟨r, hr, ?_, hmr.symm⟩
      intro l hl
      simp only [Bool.not_eq_eq_eq_not, Bool.not_true, List.any_eq_false] at hna
      exact Bool.eq_false_iff.2 (hna l hl)
  · intro hor
    rcases hor with ⟨l, hl, hcase⟩ | ⟨r, hr, hfa, hm⟩
    · apply List.mem_append_left
      apply List.mem_flatMap.2
      refine ⟨l, hl, ?_⟩
      rcases hcase with ⟨hnil, hm⟩ | ⟨r, hrr, hk, hm⟩
      · rw [if_pos (List.isEmpty_iff.2 hnil), hm]
        exact List.mem_singleton.2 rfl
      · have hrf : r ∈ right.filter fun r => key_matches l r :=
          List.mem_filter.2 ⟨hrr, hk⟩
        have hE : ¬ ((right.filter fun r => key_matches l r).isEmpty = true) :=
          fun hE => (List.ne_nil_of_mem hrf) (List.isEmpty_iff.1 hE)
        rw [if_neg hE, hm]
        exact List.mem_map_of_mem _ hrf
    · apply List.mem_append_right
      rw [hm]
      apply List.mem_map_of_mem
      apply List.mem_filter.2
      refine ⟨hr, ?_⟩
      simp only [Bool.not_eq_eq_eq_not, Bool.not_true, List.any_eq_false]
      exact fun l hl => Bool.eq_false_iff.1 (hfa l hl)

/-- Shape analysis of a merged row, with the key equality of matched pairs
made explicit. -/
theorem merged_row_cases {left right : List Row} {m : MergedRow}
    (hm : m ∈ merge_tables left right) :
    (∃ l ∈ left, m = left_only_row l) ∨
    (∃ l ∈ left, ∃ r ∈ right, Row.key l = Row.key r ∧ m = matched_row l r) ∨
    (∃ r ∈ right, (∀ l ∈ left, Row.key l ≠ Row.key r) ∧
      m = right_only_row r) := by
  rcases mem_merge_iff.1 hm with ⟨l, hl, ⟨_, hm'⟩ | ⟨r, hr, hk, hm'⟩⟩ |
    ⟨r, hr, hfa, hm'⟩
  · exact Or.inl ⟨l, hl, hm'⟩
  · exact Or.inr (Or.inl ⟨l, hl, r, hr, (key_matches_iff l r).1 hk, hm'⟩)
  · refine Or.inr (Or.inr ⟨r, hr, ?_, hm'⟩)
    intro l hl hkeq
    have := (key_matches_iff l r).2 hkeq
    rw [hfa l hl] at this
    exact Bool.false_ne_true this

/-- Each left row contributes at least one merged row carrying its key and
its value in the left value column. -/
theorem exists_merged_of_left {t1 t2 : List Row} {l : Row} (hl : l ∈ t1) :
    ∃ m ∈ merge_tables t1 t2,
      MergedRow.key m = Row.key l ∧ m.value_Population = l.value := by
  by_cases hE : (t2.filter fun r => key_matches l r) = []
  · exact ⟨left_only_row l, mem_merge_iff.2 (Or.inl ⟨l, hl, Or.inl ⟨hE, rfl⟩⟩),
      rfl, rfl⟩
  · obtain ⟨r0, hr0⟩ := List.exists_mem_of_ne_nil _ hE
    obtain ⟨hr0t, hk⟩ := List.mem_filter.1 hr0
    exact ⟨matched_row l r0,
      mem_merge_iff.2 (Or.inl ⟨l, hl, Or.inr ⟨r0, hr0t, hk, rfl⟩⟩), rfl, rfl⟩

/-- Each right row contributes at least one merged row carrying its key and
its value in the right value column. -/
theorem exists_merged_of_right {t1 t2 : List Row} {r : Row} (hr : r ∈ t2) :
    ∃ m ∈ merge_tables t1 t2,
      MergedRow.key m = Row.key r ∧ m.value_NetMigration = r.value := by
  by_cases hA : ∃ l ∈ t1, key_matches l r = true
  · obtain ⟨l, hl, hk⟩ := hA
    refine ⟨matched_row l r,
      mem_merge_iff.2 (Or.inl ⟨l, hl, Or.inr ⟨r, hr, hk, rfl⟩⟩), ?_, rfl⟩
    exact (key_matches_iff l r).1 hk
  · push_neg at hA
    refine ⟨right_only_row r, mem_merge_iff.2 (Or.inr ⟨r, hr, ?_, rfl⟩),
      rfl, rfl⟩
    intro l hl
    have := hA l hl
    exact Bool.eq_false_iff.2 this

/-- C3: the key set of the outer join is exactly the union of the input key
sets; moreover for a key present in only one input table, every merged row
at that key carries null in the other metric's value column (null, not
zero). -/
theorem merge_completeness (t1 t2 : List Row)
    (k : Option String × Option Int) :
    (k ∈ merged_keys (merge_tables t1 t2) ↔
      k ∈ table_keys t1 ∨ k ∈ table_keys t2) ∧
    (k ∈ table_keys t1 → k ∉ table_keys t2 →
      ∀ m ∈ merge_tables t1 t2, MergedRow.key m = k →
        m.value_NetMigration = none) ∧
    (k ∈ table_keys t2 → k ∉ table_keys t1 →
      ∀ m ∈ merge_tables t1 t2, MergedRow.key m = k →
        m.value_Population = none) := by
  refine ⟨⟨?_, ?_⟩, ?_, ?_⟩
  · intro hk
    obtain ⟨m, hm, hkey⟩ := List.mem_map.1 hk
    rcases merged_row_cases hm with ⟨l, hl, rfl⟩ |
      ⟨l, hl, r, hr, hkeq, rfl⟩ | ⟨r, hr, _, rfl⟩
    · exact Or.inl (List.mem_map.2 ⟨l, hl, hkey⟩)
    · exact Or.inl (List.mem_map.2 ⟨l, hl, hkey⟩)
    · exact Or.inr (List.mem_map.2 ⟨r, hr, hkey⟩)
  · intro hk
    rcases hk with hk | hk
    · obtain ⟨l, hl, hkey⟩ := List.mem_map.1 hk
      obtain ⟨m, hm, hmk, _⟩ := @exists_merged_of_left t1 t2 l hl
      exact List.mem_map.2 ⟨m, hm, by rw [hmk, hkey]⟩
    · obtain ⟨r, hr, hkey⟩ := List.mem_map.1 hk
      obtain ⟨m, hm, hmk, _⟩ := @exists_merged_of_right t1 t2 r hr
      exact List.mem_map.2 ⟨m, hm, by rw [hmk, hkey]⟩
  · intro _ hk2 m hm hkey
    rcases merged_row_cases hm with ⟨l, hl, rfl⟩ |
      ⟨l, hl, r, hr, hkeq, rfl⟩ | ⟨r, hr, _, rfl⟩
    · rfl
    · exact absurd (List.mem_map.2 ⟨r, hr, by rw [← hkeq]; exact hkey⟩) hk2
    · exact absurd (List.mem_map.2 ⟨r, hr, hkey⟩) hk2
  · intro _ hk1 m hm hkey
    rcases merged_row_cases hm with ⟨l, hl, rfl⟩ |
      ⟨l, hl, r, hr, hkeq, rfl⟩ | ⟨r, hr, _, rfl⟩
    · exact absurd (List.mem_map.2 ⟨l, hl, hkey⟩) hk1
    · exact absurd (List.mem_map.2 ⟨l, hl, hkey⟩) hk1
    · rfl

/-- Witness for C3: with a one-row population table and an empty migration
table, the population key is a key of the join and its merged row has a
null migration value. -/
theorem merge_completeness_witness :
    ((some "AFG", some (2020 : Int)) ∈
      table_keys [{ country := some "AFG", year := some 2020,
                    value := some 100 }]) ∧
    ({ country := some "AFG", year := some 2020, value_Population := some 100,
       value_NetMigration := none } : MergedRow).value_NetMigration = none :=
  ⟨by decide,
    (merge_completeness
        [{ country := some "AFG", year := some 2020, value := some 100 }]
        [] (some "AFG", some 2020)).2.1 (by decide) (by decide)
      { country := some "AFG", year := some 2020,
        value_Population := some 100, value_NetMigration := none }
      (by decide) (by decide)⟩

/-- C4: for a key present in exactly one input table, every merged row at
that key carries the source table's value for that key in that table's
value column and null in the other value column. -/
theorem merge_value_fidelity (t1 t2 : List Row)
    (k : Option String × Option Int) :
    (k ∈ table_keys t1 → k ∉ table_keys t2 →
      ∀ m ∈ merge_tables t1 t2, MergedRow.key m = k →
        m.value_NetMigration = none ∧
        ∃ l ∈ t1, Row.key l = k ∧ m.value_Population = l.value) ∧
    (k ∈ table_keys t2 → k ∉ table_keys t1 →
      ∀ m ∈ merge_tables t1 t2, MergedRow.key m = k →
        m.value_Population = none ∧
        ∃ r ∈ t2, Row.key r = k ∧ m.value_NetMigration = r.value) := by
  constructor
  · intro _ hk2 m hm hkey
    rcases merged_row_cases hm with ⟨l, hl, rfl⟩ |
      ⟨l, hl, r, hr, hkeq, rfl⟩ | ⟨r, hr, _, rfl⟩
    · exact ⟨rfl, l, hl, hkey, rfl⟩
    · exact absurd (List.mem_map.2 ⟨r, hr, by rw [← hkeq]; exact hkey⟩) hk2
    · exact absurd (List.mem_map.2 ⟨r, hr, hkey⟩) hk2
  · intro _ hk1 m hm hkey
    rcases merged_row_cases hm with ⟨l, hl, rfl⟩ |
      ⟨l, hl, r, hr, hkeq, rfl⟩ | ⟨r, hr, _, rfl⟩
    · exact absurd (List.mem_map.2 ⟨l, hl, hkey⟩) hk1
    · exact absurd (List.mem_map.2 ⟨l, hl, hkey⟩) hk1
    · exact ⟨rfl, r, hr, hkey, rfl⟩

/-- Witness for C4, after the spec's Scenario B: population rows for AFG and
IND in 2020, migration only for AFG; the IND merged row keeps its population
value and has a null migration value. -/
theorem merge_value_fidelity_witness :
    ((some "IND", some (2020 : Int)) ∈
      table_keys [{ country := some "AFG", year := some 2020,
                    value := some 100 },
                  { country := some "IND", year := some 2020,
                    value := some 200 }]) ∧
    ({ country := some "IND", year := some 2020, value_Population := some 200,
       value_NetMigration := none } : MergedRow).value_NetMigration = none :=
  ⟨by decide,
    ((merge_value_fidelity
        [{ country := some "AFG", year := some 2020, value := some 100 },
         { country := some "IND", year := some 2020, value := some 200 }]
        [{ country := some "AFG", year := some 2020, value := some 5 }]
        (some "IND", some 2020)).1 (by decide) (by decide)
      { country := some "IND", year := some 2020,
        value_Population := some 200, value_NetMigration := none }
      (by decide) (by decide)).1⟩

/-- Witness for C10 at a concrete table: a row whose year equals the lower
bound is retained. -/
theorem filter_year_range_inclusive_witness :
    ({ country := some "AFG", year := some 1960, value_Population := some 1,
       value_NetMigration := none } : MergedRow) ∈
      filter_rows ["AFG"] 1960 2023
        [{ country := some "AFG", year := some 1960,
           value_Population := some 1, value_NetMigration := none }] :=
  (filter_year_range_inclusive
      [{ country := some "AFG", year := some 1960,
         value_Population := some 1, value_NetMigration := none }]
      ["AFG"] 1960 2023
      { country := some "AFG", year := some 1960,
        value_Population := some 1, value_NetMigration := none }
      "AFG" 1960 (by decide) rfl rfl).2 (by decide)

end App
